import Mathlib

/-!
Shallow embedding of the core of the lietuvio_kelias language trainer:
the spaced-repetition scheduler (src/unnamed/part_005, classes SRSSystem and
VocabularyData) and the audio-cache / TTS resolution protocol
(src/scripts/lithuanian-tts-client.js: class LithuanianTTSClient followed by
the main server, and src/unnamed/part_010, the get_sound module).

Modelling conventions:
- JavaScript numbers holding integral values (levels, counters) are Int;
  the floating-point streak multiplier is Rat (the only values the code
  produces for it are 0.5, 1.0 and 1.5, which Rat represents exactly).
- Timestamps are Int; the SRS code manipulates dates at day granularity
  (Date.setDate), so SRS timestamps count days, while the audio-cache TTL
  constant is in milliseconds as in the source.
- Network I/O (HEAD probes, synthesis requests, audio playback) is modelled
  by an environment of response functions, and each operation additionally
  returns the list of network events it issued, in order.
- A JavaScript Map / plain-object index is an association list; an update is
  a cons at the front, and lookup returns the first (most recent) binding,
  matching Map.set / Map.get observational behaviour.
-/

namespace LietuvioKelias

/-! ### JavaScript string primitives shared by the three key-derivation sites -/

/-- Per-character model of JavaScript `String.prototype.toLowerCase` restricted
to the repertoire the key derivation distinguishes: ASCII capitals map to ASCII
lowercase and the nine Lithuanian capital diacritics map to their lowercase
forms; every other code point is left unchanged.  (Full-Unicode case mapping is
not modelled; outside this repertoire the subsequent strip of everything but
a-z makes the difference unobservable for the properties proved here.) -/
def jsCharToLower (c : Char) : Char :=
  if 'A' ≤ c && c ≤ 'Z' then Char.ofNat (c.toNat + 32)
  else if c = 'Ą' then 'ą'
  else if c = 'Č' then 'č'
  else if c = 'Ę' then 'ę'
  else if c = 'Ė' then 'ė'
  else if c = 'Į' then 'į'
  else if c = 'Š' then 'š'
  else if c = 'Ų' then 'ų'
  else if c = 'Ū' then 'ū'
  else if c = 'Ž' then 'ž'
  else c

/-- Model of `text.toLowerCase()`. -/
def jsToLowerCase (s : String) : String :=
  String.mk (s.data.map jsCharToLower)

/-- Model of `.replace(/x/g, "y")` for a single-character pattern: a global
single-character replacement rewrites every occurrence independently. -/
def jsReplaceAllChar (src dst : Char) (s : String) : String :=
  String.mk (s.data.map (fun c => if c = src then dst else c))

/-- Model of `.replace(/[^a-z]/g, "")`: delete every character that is not an
ASCII lowercase letter. -/
def jsStripNonLowerAlpha (s : String) : String :=
  String.mk (s.data.filter (fun c => 'a' ≤ c && c ≤ 'z'))

/-- Model of `.substring(0, n)`.  At the point where the sources apply it every
remaining character is ASCII, so UTF-16 code units coincide with characters. -/
def jsSubstringFromZero (s : String) (n : Nat) : String :=
  String.mk (s.data.take n)

namespace LithuanianTTSClient

/-- `LithuanianTTSClient.generateTextKey` (src/scripts/lithuanian-tts-client.js
lines 302-319): lowercase, transliterate the nine Lithuanian diacritics in
source order, strip every remaining non-[a-z] character, truncate to 50. -/
def generateTextKey (text : String) : String :=
  jsSubstringFromZero
    (jsStripNonLowerAlpha
      (jsReplaceAllChar 'ž' 'z'
        (jsReplaceAllChar 'ū' 'u'
          (jsReplaceAllChar 'ų' 'u'
            (jsReplaceAllChar 'š' 's'
              (jsReplaceAllChar 'į' 'i'
                (jsReplaceAllChar 'ė' 'e'
                  (jsReplaceAllChar 'ę' 'e'
                    (jsReplaceAllChar 'č' 'c'
                      (jsReplaceAllChar 'ą' 'a'
                        (jsToLowerCase text))))))))))) 50

end LithuanianTTSClient

namespace MainServer

/-- The main server's `generateTextKey` (src/scripts/lithuanian-tts-client.js
lines 378-394, the express server appended to the same file): same chain of
lowercase, nine transliterations, strip, truncate to 50. -/
def generateTextKey (text : String) : String :=
  jsSubstringFromZero
    (jsStripNonLowerAlpha
      (jsReplaceAllChar 'ž' 'z'
        (jsReplaceAllChar 'ū' 'u'
          (jsReplaceAllChar 'ų' 'u'
            (jsReplaceAllChar 'š' 's'
              (jsReplaceAllChar 'į' 'i'
                (jsReplaceAllChar 'ė' 'e'
                  (jsReplaceAllChar 'ę' 'e'
                    (jsReplaceAllChar 'č' 'c'
                      (jsReplaceAllChar 'ą' 'a'
                        (jsToLowerCase text))))))))))) 50

end MainServer

namespace GetSound

/-- `generateTextKey` of the get_sound module (src/unnamed/part_010 lines
19-35): same chain of lowercase, nine transliterations, strip, truncate. -/
def generateTextKey (text : String) : String :=
  jsSubstringFromZero
    (jsStripNonLowerAlpha
      (jsReplaceAllChar 'ž' 'z'
        (jsReplaceAllChar 'ū' 'u'
          (jsReplaceAllChar 'ų' 'u'
            (jsReplaceAllChar 'š' 's'
              (jsReplaceAllChar 'į' 'i'
                (jsReplaceAllChar 'ė' 'e'
                  (jsReplaceAllChar 'ę' 'e'
                    (jsReplaceAllChar 'č' 'c'
                      (jsReplaceAllChar 'ą' 'a'
                        (jsToLowerCase text))))))))))) 50

end GetSound

/-! ### SRS engine (src/unnamed/part_005) -/

/-- The `srsData` record attached to every word.  `nextReview` and
`lastReviewed` are timestamps at day granularity. -/
structure SRSData where
  level : Int
  nextReview : Int
  totalReviews : Int
  correctAnswers : Int
  lastReviewed : Option Int
deriving DecidableEq

/-- A vocabulary word, restricted to the fields the SRS operations read. -/
structure Word where
  id : String
  srsData : SRSData
deriving DecidableEq

namespace SRSSystem

/-- `this.intervals` from the SRSSystem constructor: days between reviews. -/
def intervals : List Int := [1, 2, 4, 8, 16, 32, 64, 128, 256, 512]

/-- `this.maxLevel`. -/
def maxLevel : Int := 10

/-- `this.intervals[newLevel - 1] || this.intervals[this.intervals.length - 1]`:
an in-range index returns the table entry (every entry is nonzero, hence
truthy); any out-of-range index yields undefined, which falls back to the last
entry, 512. -/
def intervalForLevel (newLevel : Int) : Int :=
  if 1 ≤ newLevel && newLevel ≤ 10 then intervals.getD (newLevel - 1).toNat 512
  else 512

/-- Result record of `calculateNextReview`. -/
structure ReviewResult where
  newLevel : Int
  nextReviewDate : Int
  intervalDays : Int
deriving DecidableEq

/-- `SRSSystem.calculateNextReview(currentLevel, correct, streakMultiplier)`
(part_005 lines 9-35).  `now` stands for `new Date()`; the date arithmetic is
at day granularity as in `setDate`.  `Math.floor` on the float product is
`Rat.floor` on the exact rational product. -/
def calculateNextReview (now : Int) (currentLevel : Int) (correct : Bool)
    (streakMultiplier : Rat) : ReviewResult :=
  let newLevel := if correct then min (currentLevel + 1) maxLevel
                  else max 1 (currentLevel - 2)
  let baseInterval := intervalForLevel newLevel
  let actualInterval := Rat.floor ((baseInterval : Rat) * streakMultiplier)
  { newLevel := newLevel
    nextReviewDate := now + actualInterval
    intervalDays := actualInterval }

/-- The comparator of `suggestStudySession` (part_005 lines 71-76), read as a
boolean "a comes no later than b": the comparator returns a nonpositive number
exactly when a's level is lower, or the levels are equal and a's next-review
date is no later. -/
def srsLe (a b : Word) : Bool :=
  decide (a.srsData.level < b.srsData.level) ||
    (a.srsData.level == b.srsData.level &&
      decide (a.srsData.nextReview ≤ b.srsData.nextReview))

/-- Result record of `suggestStudySession`.  The empty-input early return does
not set `totalDue`, hence the Option. -/
structure SessionSuggestion where
  recommended : List Word
  totalDue : Option Nat
  message : String
deriving DecidableEq

/-- `SRSSystem.suggestStudySession(dueWords, targetSessionLength)` (part_005
lines 62-90).  `Array.prototype.sort` is stable (ES2019) and sorts the
caller's array in place; the model returns, next to the result object, the
final contents of the `dueWords` argument array. -/
def suggestStudySession (dueWords : List Word) (targetSessionLength : Nat) :
    SessionSuggestion × List Word :=
  if dueWords.isEmpty then
    ({ recommended := []
       totalDue := none
       message := "No words due for review! Great job staying on track." },
     dueWords)
  else
    let sorted := dueWords.mergeSort srsLe
    let recommended := sorted.take targetSessionLength
    let base := toString recommended.length ++ " words ready for review."
    let message :=
      if dueWords.length > targetSessionLength then
        base ++ " " ++ toString (dueWords.length - targetSessionLength) ++
          " more words are also due."
      else base
    ({ recommended := recommended
       totalDue := some dueWords.length
       message := message },
     sorted)

end SRSSystem

namespace VocabularyData

/-- The local `intervals` table re-declared inside `updateWordSRS` (part_005
line 348). -/
def intervals : List Int := [1, 2, 4, 8, 16, 32, 64, 128, 256, 512]

/-- `intervals[word.srsData.level - 1] || 512` (part_005 line 349). -/
def daysUntilNextFor (level : Int) : Int :=
  if 1 ≤ level && level ≤ 10 then intervals.getD (level - 1).toNat 512
  else 512

/-- The in-place mutation `updateWordSRS` performs on the word it found
(part_005 lines 337-352): bump counters, stamp `lastReviewed`, promote by one
capped at 10 on correct or demote by one floored at 1 on incorrect, then
recompute `nextReview` from the new level. -/
def applySRSUpdate (now : Int) (correct : Bool) (w : Word) : Word :=
  let sd := w.srsData
  let sd := { sd with totalReviews := sd.totalReviews + 1
                      lastReviewed := some now }
  let sd :=
    if correct then
      { sd with correctAnswers := sd.correctAnswers + 1
                level := min (sd.level + 1) 10 }
    else
      { sd with level := max (sd.level - 1) 1 }
  { w with srsData := { sd with nextReview := now + daysUntilNextFor sd.level } }

/-- `this.words.find(...)` followed by mutation of the found object: only the
first element satisfying the test is replaced; `none` when there is no match. -/
def updateFirst {α : Type} (p : α → Bool) (g : α → α) : List α → Option (List α)
  | [] => none
  | x :: xs => if p x then some (g x :: xs) else (updateFirst p g xs).map (x :: ·)

/-- `VocabularyData.updateWordSRS(wordId, correct)` (part_005 lines 333-356).
The components are: the boolean return value, the final contents of
`this.words`, and whether `saveWords()` (persistence) was invoked. -/
def updateWordSRS (words : List Word) (now : Int) (wordId : String)
    (correct : Bool) : Bool × List Word × Bool :=
  match updateFirst (fun w => w.id == wordId) (applySRSUpdate now correct) words with
  | none => (false, words, false)
  | some ws => (true, ws, true)

end VocabularyData

/-! ### Audio cache resolver client (src/scripts/lithuanian-tts-client.js) -/

/-- One binding of the client-side URL memo (`this.cache`).  The source stores
only the URL; `fetchedAt` is ghost instrumentation recording when the binding
was created — the code never reads any timestamp from the memo. -/
structure MemoEntry where
  url : String
  fetchedAt : Int
deriving DecidableEq

/-- The mutable fields of `LithuanianTTSClient`. -/
structure TTSClient where
  serverUrl : String
  fallbackUrl : String
  cache : List (String × MemoEntry)
  usesFallback : Bool
deriving DecidableEq

/-- The constructor defaults (lines 7-12). -/
def TTSClient.init : TTSClient :=
  { serverUrl := "http://localhost:3001"
    fallbackUrl := "http://localhost:8080"
    cache := []
    usesFallback := false }

/-- Network and playback actions the client performs, recorded in order. -/
inductive NetEvent where
  | head (url : String)
  | synthReq (baseUrl : String) (text : String) (force : Bool)
  | play (url : String)
  | platformVoice (text : String)
deriving DecidableEq

/-- Recognizer for the platform built-in voice event. -/
def NetEvent.isPlatformVoice : NetEvent → Bool
  | .platformVoice _ => true
  | _ => false

/-- The network environment: outcome of a HEAD existence probe at a URL,
outcome of a GET /tts/generate synthesis request at a base URL (collapsing
network error, non-ok status and success:false into `none`), and whether
playback of a given audio URL succeeds. -/
structure TTSEnv where
  probeOk : String → Bool
  synth : String → String → Bool → Option String
  playOk : String → Bool

namespace LithuanianTTSClient

/-- `checkCacheDirectly(text)` (lines 19-75): HEAD-probe the TTS server for
`{key}.mp3`, then the main server's /audio_cache/ route; return the first URL
that answers ok, else null.  All fetch errors are caught and fall through. -/
def checkCacheDirectly (c : TTSClient) (env : TTSEnv) (text : String) :
    Option String × List NetEvent :=
  let filename := generateTextKey text ++ ".mp3"
  let ttsUrl := c.serverUrl ++ "/" ++ filename
  if env.probeOk ttsUrl then (some ttsUrl, [.head ttsUrl])
  else
    let cacheUrl := c.fallbackUrl ++ "/audio_cache/" ++ filename
    if env.probeOk cacheUrl then (some cacheUrl, [.head ttsUrl, .head cacheUrl])
    else (none, [.head ttsUrl, .head cacheUrl])

/-- The `for (const server of servers)` loop of `getAudioUrl` (lines 138-172):
request synthesis from each base URL in turn; on the first success memoise the
returned URL (keyed by `cacheKey`, stamped with the ghost time `now`), record
whether the fallback server answered, and stop; if every server fails, throw. -/
def tryServers (c : TTSClient) (env : TTSEnv) (now : Int) (text : String)
    (force : Bool) (cacheKey : String) :
    List String → Except Unit String × TTSClient × List NetEvent
  | [] => (.error (), c, [])
  | base :: rest =>
    match env.synth base text force with
    | some url =>
        (.ok url,
         { c with cache := (cacheKey, { url := url, fetchedAt := now }) :: c.cache
                  usesFallback := base == c.fallbackUrl },
         [.synthReq base text force])
    | none =>
        let r := tryServers c env now text force cacheKey rest
        (r.1, r.2.1, .synthReq base text force :: r.2.2)

/-- `getAudioUrl(text, forceRegenerate)` (lines 121-181): unless forcing,
consult the client-side memo first and return a hit immediately; otherwise try
the TTS server then the fallback server; throw when both fail. -/
def getAudioUrl (c : TTSClient) (env : TTSEnv) (now : Int) (text : String)
    (force : Bool) : Except Unit String × TTSClient × List NetEvent :=
  let cacheKey := generateTextKey text
  match (if force then none else c.cache.lookup cacheKey) with
  | some entry => (.ok entry.url, c, [])
  | none => tryServers c env now text force cacheKey [c.serverUrl, c.fallbackUrl]

/-- `speak(text, forceRegenerate)` (lines 84-113): STEP 1 — unless forcing,
probe both servers' caches directly and play a hit; STEP 2 — otherwise obtain
a URL via `getAudioUrl` and play it.  The surrounding try/catch converts any
failure (including a playback failure) into the single AudioUnavailable error,
modelled as `.error ()`. -/
def speak (c : TTSClient) (env : TTSEnv) (now : Int) (text : String)
    (force : Bool) : Except Unit Unit × TTSClient × List NetEvent :=
  let viaServers := fun (ev0 : List NetEvent) =>
    match getAudioUrl c env now text force with
    | (.ok url, c', ev) =>
        if env.playOk url then (.ok (), c', ev0 ++ ev ++ [.play url])
        else (.error (), c', ev0 ++ ev ++ [.play url])
    | (.error _, c', ev) => (.error (), c', ev0 ++ ev)
  if force then viaServers []
  else
    match checkCacheDirectly c env text with
    | (some url, ev) =>
        if env.playOk url then (.ok (), c, ev ++ [.play url])
        else (.error (), c, ev ++ [.play url])
    | (none, ev) => viaServers ev

/-- `fallbackSpeak(text)` (lines 286-295): when the platform speech synthesis
exists, utter the text with the built-in voice; otherwise do nothing. -/
def fallbackSpeak (speechSynthesisAvailable : Bool) (text : String) :
    List NetEvent :=
  if speechSynthesisAvailable then [.platformVoice text] else []

/-- Derived description of the tier order `speak` actually executes, used to
state the error-propagation property: primary cache probe, fallback cache
probe, client memo, primary synthesis, fallback synthesis — probes and memo
skipped when forcing.  Yields the URL of the first successful tier. -/
def resolutionOutcome (c : TTSClient) (env : TTSEnv) (text : String)
    (force : Bool) : Option String :=
  let filename := generateTextKey text ++ ".mp3"
  let ttsUrl := c.serverUrl ++ "/" ++ filename
  let cacheUrl := c.fallbackUrl ++ "/audio_cache/" ++ filename
  let synthFirst :=
    match env.synth c.serverUrl text force with
    | some u => some u
    | none => env.synth c.fallbackUrl text force
  if force then synthFirst
  else if env.probeOk ttsUrl then some ttsUrl
  else if env.probeOk cacheUrl then some cacheUrl
  else
    match c.cache.lookup (generateTextKey text) with
    | some e => some e.url
    | none => synthFirst

end LithuanianTTSClient

/-- `this.cacheExpiry = 24 * 60 * 60 * 1000` — the 24-hour TTL constant of
`CloudTTSConfig` (src/temp/cloud-tts-providers.js line 7), in milliseconds. -/
def CloudTTSConfig.cacheExpiry : Int := 24 * 60 * 60 * 1000

/-! ### Server-side generation with durable cache (src/unnamed/part_010) -/

namespace GetSound

/-- One entry of `cache_index.json` (the fields the logic reads; the source
also stores filename, file size, voice and speaking rate). -/
structure CacheEntry where
  originalText : String
  generatedAt : Int
deriving DecidableEq

/-- The durable server-side state: the cache index plus the set of audio files
present in the cache directory. -/
structure Store where
  index : List (String × CacheEntry)
  files : List String
deriving DecidableEq

/-- The cached-hit condition of `quickStart` (part_010 line 101):
`cache[textKey] && fs.existsSync(filepath)`. -/
def isCachedIn (st : Store) (key : String) : Bool :=
  (st.index.lookup key).isSome && st.files.contains (key ++ ".mp3")

/-- `const text = inputText || 'Labas rytas! Kaip sekasi?'` (part_010 line
85): a falsy input string — for a String argument, exactly the empty string —
is replaced by the default phrase. -/
def textOrDefault (inputText : String) : String :=
  if inputText == "" then "Labas rytas! Kaip sekasi?" else inputText

/-- `quickStart(inputText, options)` (part_010 lines 83-177): substitute the
default phrase for a falsy input (line 85), then serve the cached file when
the index entry and the file both exist and regeneration is not forced;
otherwise synthesize (which may fail — `synthOk` is the external Google TTS
call), write the file and update the index.  The returned path is reduced to
the filename (the cache directory is a constant prefix). -/
def quickStart (st : Store) (synthOk : String → Bool) (now : Int)
    (inputText : String) (forceRegenerate : Bool) : Store × Except Unit String :=
  let text := textOrDefault inputText
  let textKey := generateTextKey text
  let filename := textKey ++ ".mp3"
  if !forceRegenerate && isCachedIn st textKey then (st, .ok filename)
  else if synthOk text then
    ({ index := (textKey, { originalText := text, generatedAt := now }) :: st.index
       files := filename :: st.files },
     .ok filename)
  else (st, .error ())

/-- The counts `generateVocabularyAudio` returns. -/
structure BatchResult where
  total : Nat
  cached : Nat
  generated : Nat
deriving DecidableEq

/-- `generateVocabularyAudio(words, options)` (part_010 lines 184-237):
partition the input against the initial cache into already-cached and
to-generate, call `quickStart` on each missing item (individual failures are
caught and skipped), and report the partition sizes. -/
def generateVocabularyAudio (st : Store) (synthOk : String → Bool) (now : Int)
    (words : List String) : Store × BatchResult :=
  let cachedItems := words.filter (fun t => isCachedIn st (generateTextKey t))
  let newItems := words.filter (fun t => !isCachedIn st (generateTextKey t))
  let st' := newItems.foldl (fun s t => (quickStart s synthOk now t false).1) st
  (st',
   { total := words.length
     cached := cachedItems.length
     generated := newItems.length })

end GetSound

/-! ### Helper lemmas -/

theorem updateFirst_eq_none {α : Type} (p : α → Bool) (g : α → α) (l : List α)
    (h : ∀ x ∈ l, p x = false) : VocabularyData.updateFirst p g l = none := by
  induction l with
  | nil => rfl
  | cons x xs ih =>
      have hx := h x (List.mem_cons_self x xs)
      simp [VocabularyData.updateFirst, hx,
        ih (fun y hy => h y (List.mem_cons_of_mem x hy))]

theorem updateFirst_append_last {α : Type} (p : α → Bool) (g : α → α)
    (l : List α) (w : α) (hl : ∀ x ∈ l, p x = false) (hw : p w = true) :
    VocabularyData.updateFirst p g (l ++ [w]) = some (l ++ [g w]) := by
  induction l with
  | nil => simp [VocabularyData.updateFirst, hw]
  | cons x xs ih =>
      have hx := hl x (List.mem_cons_self x xs)
      simp [VocabularyData.updateFirst, hx,
        ih (fun y hy => hl y (List.mem_cons_of_mem x hy))]

end LietuvioKelias

namespace LietuvioKelias

/-! ### Claim theorems -/

/-- C4: the client-side key derivation and the two server-side key derivations
are extensionally equal — for every input string all three return the same
key. -/
theorem claim_C4 (s : String) :
    LithuanianTTSClient.generateTextKey s = MainServer.generateTextKey s
    ∧ MainServer.generateTextKey s = GetSound.generateTextKey s :=
  ⟨rfl, rfl⟩

/-- C5: `generateTextKey` is total by construction (a Lean function); for
every input it returns at most 50 characters, all of them ASCII lowercase
letters a-z; in particular the key of "Ąžuolas" is the diacritic-free
"azuolas". -/
theorem claim_C5 (s : String) :
    (LithuanianTTSClient.generateTextKey s).length ≤ 50
    ∧ ((LithuanianTTSClient.generateTextKey s).data.all
        (fun c => 'a' ≤ c && c ≤ 'z')) = true
    ∧ LithuanianTTSClient.generateTextKey "Ąžuolas" = "azuolas" := by
  refine ⟨?_, ?_, by decide⟩
  · show (String.mk _).length ≤ 50
    show (List.take 50 _).length ≤ 50
    simp [List.length_take]
  · rw [List.all_eq_true]
    intro c hc
    simp only [LithuanianTTSClient.generateTextKey, jsSubstringFromZero,
      jsStripNonLowerAlpha] at hc
    have hc' := List.mem_of_mem_take hc
    exact (List.mem_filter.mp hc').2

/-- C1 counterexample: at level 3 with an incorrect answer,
`VocabularyData.updateWordSRS` produces level 2, not max(3-2,1) = 1 — the
claim that both code paths demote by two tiers is false. -/
theorem claim_C1_counterexample :
    VocabularyData.updateWordSRS
        [{ id := "w1", srsData := { level := 3, nextReview := 0, totalReviews := 0, correctAnswers := 0, lastReviewed := none } }]
        0 "w1" false
      = (true,
         [{ id := "w1", srsData := { level := 2, nextReview := 2, totalReviews := 1, correctAnswers := 0, lastReviewed := some 0 } }],
         true)
    ∧ (2 : Int) ≠ max (3 - 2) 1 := by
  constructor
  · decide
  · decide

/-- C1 amended: for every level L in [1,10] and an incorrect outcome,
`SRSSystem.calculateNextReview` demotes by two tiers floored at 1
(newLevel = max(L-2,1)), while `VocabularyData.updateWordSRS` demotes by one
tier floored at 1 (the stored word's new level is max(L-1,1)). -/
theorem claim_C1_amended (L : Int) (m : Rat) (now : Int) (w : Word)
    (ws : List Word) (h1 : 1 ≤ L) (h2 : L ≤ 10) (hw : w.srsData.level = L)
    (hws : ∀ v ∈ ws, (v.id == w.id) = false) :
    (SRSSystem.calculateNextReview now L false m).newLevel = max (L - 2) 1
    ∧ ∃ w' : Word,
        VocabularyData.updateWordSRS (ws ++ [w]) now w.id false
          = (true, ws ++ [w'], true)
        ∧ w'.srsData.level = max (L - 1) 1 := by
  constructor
  · simp only [SRSSystem.calculateNextReview, SRSSystem.maxLevel,
      Bool.false_eq_true, if_false]
    omega
  · refine ⟨VocabularyData.applySRSUpdate now false w, ?_, ?_⟩
    · unfold VocabularyData.updateWordSRS
      rw [updateFirst_append_last _ _ ws w hws (by simp)]
    · simp only [VocabularyData.applySRSUpdate, Bool.false_eq_true, if_false, hw]

/-- C1 witness: the amended statement instantiated at level 3. -/
theorem claim_C1_witness :
    (1 : Int) ≤ 3 ∧ (3 : Int) ≤ 10
    ∧ ((SRSSystem.calculateNextReview 0 3 false 1).newLevel = max (3 - 2) 1
       ∧ ∃ w' : Word,
           VocabularyData.updateWordSRS
               ([] ++ [{ id := "w1", srsData := { level := 3, nextReview := 0, totalReviews := 0, correctAnswers := 0, lastReviewed := none } }])
               0 "w1" false
             = (true, [] ++ [w'], true)
           ∧ w'.srsData.level = max ((3 : Int) - 1) 1) :=
  ⟨by decide, by decide,
    claim_C1_amended 3 1 0
      { id := "w1", srsData := { level := 3, nextReview := 0, totalReviews := 0, correctAnswers := 0, lastReviewed := none } }
      [] (by decide) (by decide) rfl (by simp)⟩

/-- C9: when no stored word has the requested id, `updateWordSRS` returns
false, leaves the word collection unchanged and does not persist anything. -/
theorem claim_C9 (words : List Word) (now : Int) (wordId : String)
    (correct : Bool) (h : ∀ w ∈ words, (w.id == wordId) = false) :
    VocabularyData.updateWordSRS words now wordId correct
      = (false, words, false) := by
  unfold VocabularyData.updateWordSRS
  rw [updateFirst_eq_none _ _ words h]

/-- The study-session comparator is transitive. -/
theorem srsLe_trans (a b c : Word) (h1 : SRSSystem.srsLe a b = true)
    (h2 : SRSSystem.srsLe b c = true) : SRSSystem.srsLe a c = true := by
  simp only [SRSSystem.srsLe, Bool.or_eq_true, Bool.and_eq_true,
    decide_eq_true_eq, beq_iff_eq] at h1 h2 ⊢
  omega

/-- The study-session comparator is total. -/
theorem srsLe_total (a b : Word) :
    (SRSSystem.srsLe a b || SRSSystem.srsLe b a) = true := by
  simp only [SRSSystem.srsLe, Bool.or_eq_true, Bool.and_eq_true,
    decide_eq_true_eq, beq_iff_eq]
  omega

/-- If any two elements satisfying p are related by le, then a filter by p is
pairwise le-related. -/
theorem pairwise_filter_of_class {α : Type} (le : α → α → Bool) (p : α → Bool)
    (hp : ∀ a b, p a = true → p b = true → le a b = true) (l : List α) :
    (l.filter p).Pairwise (fun a b => le a b = true) := by
  induction l with
  | nil => simp
  | cons x xs ih =>
      by_cases hx : p x = true
      · rw [List.filter_cons_of_pos hx, List.pairwise_cons]
        exact ⟨fun b hb => hp x b hx (List.of_mem_filter hb), ih⟩
      · rw [List.filter_cons_of_neg (by simpa using hx)]
        exact ih

/-- Stability of mergeSort on an equivalence class: filtering the sorted list
by a predicate whose holders are mutually le-related gives exactly the filter
of the input, in input order. -/
theorem filter_mergeSort_of_class {α : Type} (le : α → α → Bool)
    (htrans : ∀ a b c, le a b = true → le b c = true → le a c = true)
    (htotal : ∀ a b, (le a b || le b a) = true) (p : α → Bool)
    (hp : ∀ a b, p a = true → p b = true → le a b = true) (l : List α) :
    (l.mergeSort le).filter p = l.filter p := by
  have hpw : (l.filter p).Pairwise (fun a b => le a b = true) :=
    pairwise_filter_of_class le p hp l
  have hA : (l.filter p).Sublist (l.mergeSort le) :=
    List.sublist_mergeSort htrans htotal hpw (List.filter_sublist l)
  have hB : List.Perm ((l.mergeSort le).filter p) (l.filter p) :=
    (List.mergeSort_perm l le).filter p
  have hfix : (l.filter p).filter p = l.filter p :=
    List.filter_eq_self.mpr (fun a ha => List.of_mem_filter ha)
  have hC : (l.filter p).Sublist ((l.mergeSort le).filter p) := by
    have := hA.filter p
    rwa [hfix] at this
  exact (hC.eq_of_length hB.length_eq.symm).symm

/-- Filtering a prefix obtained by take yields a prefix of the filter. -/
theorem take_filter_isPrefixOf {α : Type} (l : List α) (p : α → Bool) (n : Nat) :
    (l.take n).filter p <+: l.filter p :=
  ⟨(l.drop n).filter p, by rw [← List.filter_append, List.take_append_drop]⟩

/-- C6: `suggestStudySession` returns a recommended sequence of length at most
`targetSessionLength`, sorted non-decreasingly by (level, nextReview), and for
every (level, nextReview) class the recommended items are an initial segment
of the input's items of that class in their original input order (stable sort
plus truncation). -/
theorem claim_C6 (items : List Word) (t : Nat) :
    ((SRSSystem.suggestStudySession items t).1.recommended).length ≤ t
    ∧ ((SRSSystem.suggestStudySession items t).1.recommended).Pairwise
        (fun a b => SRSSystem.srsLe a b = true)
    ∧ ∀ L d : Int,
        ((SRSSystem.suggestStudySession items t).1.recommended).filter
            (fun w => w.srsData.level == L && w.srsData.nextReview == d)
          <+: items.filter
            (fun w => w.srsData.level == L && w.srsData.nextReview == d) := by
  by_cases hemp : items.isEmpty
  · simp [SRSSystem.suggestStudySession, hemp, List.nil_prefix]
  · have hcls : ∀ (L d : Int) (a b : Word),
        (fun w => w.srsData.level == L && w.srsData.nextReview == d) a = true →
        (fun w => w.srsData.level == L && w.srsData.nextReview == d) b = true →
        SRSSystem.srsLe a b = true := by
      intro L d a b ha hb
      simp only [Bool.and_eq_true, beq_iff_eq] at ha hb
      simp only [SRSSystem.srsLe, Bool.or_eq_true, Bool.and_eq_true,
        decide_eq_true_eq, beq_iff_eq]
      omega
    simp only [SRSSystem.suggestStudySession, hemp, Bool.false_eq_true,
      if_false]
    refine ⟨by simp [List.length_take], ?_, ?_⟩
    · exact (List.sorted_mergeSort srsLe_trans srsLe_total items).sublist
        (List.take_sublist t _)
    · intro L d
      have h1 := filter_mergeSort_of_class SRSSystem.srsLe srsLe_trans
        srsLe_total _ (hcls L d) items
      have h2 := take_filter_isPrefixOf (items.mergeSort SRSSystem.srsLe)
        (fun w => w.srsData.level == L && w.srsData.nextReview == d) t
      rwa [h1] at h2

/-- C10: `suggestStudySession` sorts the caller's `dueWords` array in place:
after the call the argument array is a permutation of its old contents in
non-decreasing (level, nextReview) order — the recommended list is the take of
that reordered array — and for an unsorted two-element input the array really
is permuted rather than left unchanged. -/
theorem claim_C10 :
    (∀ (ws : List Word) (t : Nat),
        List.Perm ((SRSSystem.suggestStudySession ws t).2) ws
        ∧ ((SRSSystem.suggestStudySession ws t).2).Pairwise
            (fun a b => SRSSystem.srsLe a b = true)
        ∧ (SRSSystem.suggestStudySession ws t).1.recommended
            = ((SRSSystem.suggestStudySession ws t).2).take t)
    ∧ (SRSSystem.suggestStudySession
          [{ id := "b", srsData := { level := 2, nextReview := 0, totalReviews := 0, correctAnswers := 0, lastReviewed := none } },
           { id := "a", srsData := { level := 1, nextReview := 0, totalReviews := 0, correctAnswers := 0, lastReviewed := none } }]
          20).2
        = [{ id := "a", srsData := { level := 1, nextReview := 0, totalReviews := 0, correctAnswers := 0, lastReviewed := none } },
           { id := "b", srsData := { level := 2, nextReview := 0, totalReviews := 0, correctAnswers := 0, lastReviewed := none } }]
    ∧ ([{ id := "a", srsData := { level := 1, nextReview := 0, totalReviews := 0, correctAnswers := 0, lastReviewed := none } },
        { id := "b", srsData := { level := 2, nextReview := 0, totalReviews := 0, correctAnswers := 0, lastReviewed := none } }]
        : List Word)
      ≠ [{ id := "b", srsData := { level := 2, nextReview := 0, totalReviews := 0, correctAnswers := 0, lastReviewed := none } },
         { id := "a", srsData := { level := 1, nextReview := 0, totalReviews := 0, correctAnswers := 0, lastReviewed := none } }] := by
  refine ⟨?_, ?_, by decide⟩
  · intro ws t
    by_cases hemp : ws.isEmpty
    · have : ws = [] := List.isEmpty_iff.mp hemp
      subst this
      simp [SRSSystem.suggestStudySession]
    · simp only [SRSSystem.suggestStudySession, hemp, Bool.false_eq_true,
        if_false]
      exact ⟨List.mergeSort_perm ws _,
        List.sorted_mergeSort srsLe_trans srsLe_total ws, trivial⟩
  · simp [SRSSystem.suggestStudySession, List.mergeSort, SRSSystem.srsLe,
      List.merge]

/-- C9 witness: a concrete one-word collection and a foreign id. -/
theorem claim_C9_witness :
    VocabularyData.updateWordSRS
        [{ id := "w1", srsData := { level := 4, nextReview := 7, totalReviews := 5, correctAnswers := 3, lastReviewed := some 2 } }]
        9 "zzz" true
      = (false,
         [{ id := "w1", srsData := { level := 4, nextReview := 7, totalReviews := 5, correctAnswers := 3, lastReviewed := some 2 } }],
         false) :=
  claim_C9 _ 9 "zzz" true (by decide)

/-- C2 counterexample: a client whose memo already holds a URL for "labas"
still issues a HEAD network probe as its very first action on
`speak("labas", false)` and plays the probed URL, not the memoised one — the
memo is not consulted first. -/
theorem claim_C2_counterexample :
    LithuanianTTSClient.speak
        { serverUrl := "http://localhost:3001", fallbackUrl := "http://localhost:8080", cache := [("labas", { url := "memo://labas", fetchedAt := 0 })], usesFallback := false }
        { probeOk := fun _ => true, synth := fun _ _ _ => none, playOk := fun _ => true }
        0 "labas" false
      = (.ok (),
         { serverUrl := "http://localhost:3001", fallbackUrl := "http://localhost:8080", cache := [("labas", { url := "memo://labas", fetchedAt := 0 })], usesFallback := false },
         [.head "http://localhost:3001/labas.mp3",
          .play "http://localhost:3001/labas.mp3"])
    ∧ (TTSClient.cache
          { serverUrl := "http://localhost:3001", fallbackUrl := "http://localhost:8080", cache := [("labas", { url := "memo://labas", fetchedAt := 0 })], usesFallback := false }).lookup
          (LithuanianTTSClient.generateTextKey "labas")
        = some { url := "memo://labas", fetchedAt := 0 }
    ∧ ("http://localhost:3001/labas.mp3" : String) ≠ "memo://labas" := by
  refine ⟨rfl, by decide, by decide⟩

/-- C2 amended: within `getAudioUrl` (and only there) the memo is consulted
first on a non-forced request and a hit returns that URL immediately issuing
no network traffic; `speak`, however, issues HEAD cache probes against both
endpoints before the memo is ever consulted, so on a non-forced `speak` call
with both probes missing the trace is probe, probe, then playback of the
memoised URL. -/
theorem claim_C2_amended (c : TTSClient) (env : TTSEnv) (now : Int)
    (text : String) (e : MemoEntry)
    (hmemo : c.cache.lookup (LithuanianTTSClient.generateTextKey text) = some e) :
    LithuanianTTSClient.getAudioUrl c env now text false = (.ok e.url, c, [])
    ∧ (env.probeOk (c.serverUrl ++ "/" ++ (LithuanianTTSClient.generateTextKey text ++ ".mp3")) = false →
       env.probeOk (c.fallbackUrl ++ "/audio_cache/" ++ (LithuanianTTSClient.generateTextKey text ++ ".mp3")) = false →
       (LithuanianTTSClient.speak c env now text false).2.2
         = [.head (c.serverUrl ++ "/" ++ (LithuanianTTSClient.generateTextKey text ++ ".mp3")),
            .head (c.fallbackUrl ++ "/audio_cache/" ++ (LithuanianTTSClient.generateTextKey text ++ ".mp3")),
            .play e.url]) := by
  have hget : LithuanianTTSClient.getAudioUrl c env now text false
      = (.ok e.url, c, []) := by
    simp [LithuanianTTSClient.getAudioUrl, hmemo]
  refine ⟨hget, fun hp1 hp2 => ?_⟩
  simp only [LithuanianTTSClient.speak, LithuanianTTSClient.checkCacheDirectly,
    hp1, hp2, Bool.false_eq_true, if_false, hget]
  by_cases hplay : env.playOk e.url = true
  · simp [hplay]
  · simp [hplay]

/-- C2 witness: the amended statement instantiated at a concrete memoised
client. -/
theorem claim_C2_witness :
    LithuanianTTSClient.getAudioUrl
        { serverUrl := "s", fallbackUrl := "f", cache := [("labas", { url := "memo", fetchedAt := 0 })], usesFallback := false }
        { probeOk := fun _ => false, synth := fun _ _ _ => none, playOk := fun _ => true }
        0 "labas" false
      = (.ok "memo",
         { serverUrl := "s", fallbackUrl := "f", cache := [("labas", { url := "memo", fetchedAt := 0 })], usesFallback := false },
         []) :=
  (claim_C2_amended _ _ 0 "labas" { url := "memo", fetchedAt := 0 }
    (by decide)).1

/-- C3 counterexample: a memo entry fetched at time 0 and looked up at
90 000 000 ms (beyond the 24h = 86 400 000 ms TTL) is still returned as a hit
with the memo left untouched — nothing in `LithuanianTTSClient` treats an old
entry as a miss or removes it. -/
theorem claim_C3_counterexample :
    LithuanianTTSClient.getAudioUrl
        { serverUrl := "http://localhost:3001", fallbackUrl := "http://localhost:8080", cache := [("labas", { url := "http://localhost:3001/labas.mp3", fetchedAt := 0 })], usesFallback := false }
        { probeOk := fun _ => false, synth := fun _ _ _ => none, playOk := fun _ => true }
        90000000 "labas" false
      = (.ok "http://localhost:3001/labas.mp3",
         { serverUrl := "http://localhost:3001", fallbackUrl := "http://localhost:8080", cache := [("labas", { url := "http://localhost:3001/labas.mp3", fetchedAt := 0 })], usesFallback := false },
         [])
    ∧ (90000000 : Int) - 0 > CloudTTSConfig.cacheExpiry := by
  refine ⟨rfl, by decide⟩

/-- C3 amended: the `LithuanianTTSClient` URL memo never expires — an entry is
returned as a hit and left in place no matter how far `now` exceeds its (ghost)
fetch time plus the 24h `cacheExpiry` constant; and the durable server-side
artifact store does not expire either: for any non-empty text (an empty input
is remapped to the default phrase before the cache lookup), `quickStart`
serves a cached entry without synthesizing, regardless of its `generatedAt`
age. -/
theorem claim_C3_amended (c : TTSClient) (env : TTSEnv) (now : Int)
    (text : String) (e : MemoEntry)
    (hmemo : c.cache.lookup (LithuanianTTSClient.generateTextKey text) = some e)
    (_hstale : now - e.fetchedAt > CloudTTSConfig.cacheExpiry) :
    LithuanianTTSClient.getAudioUrl c env now text false = (.ok e.url, c, [])
    ∧ ∀ (st : GetSound.Store) (synthOk : String → Bool) (now2 : Int)
        (text2 : String),
        (text2 == "") = false →
        GetSound.isCachedIn st (GetSound.generateTextKey text2) = true →
        GetSound.quickStart st synthOk now2 text2 false
          = (st, .ok (GetSound.generateTextKey text2 ++ ".mp3")) := by
  refine ⟨by simp [LithuanianTTSClient.getAudioUrl, hmemo], ?_⟩
  intro st synthOk now2 text2 hne hcached
  have hdt : GetSound.textOrDefault text2 = text2 := by
    simp [GetSound.textOrDefault, hne]
  simp [GetSound.quickStart, hdt, hcached]

/-- C3 witness: the amended statement instantiated at a stale memo entry and a
concrete cached store. -/
theorem claim_C3_witness :
    LithuanianTTSClient.getAudioUrl
        { serverUrl := "s", fallbackUrl := "f", cache := [("zodis", { url := "u3", fetchedAt := 0 })], usesFallback := false }
        { probeOk := fun _ => false, synth := fun _ _ _ => none, playOk := fun _ => true }
        100000000 "zodis" false
      = (.ok "u3",
         { serverUrl := "s", fallbackUrl := "f", cache := [("zodis", { url := "u3", fetchedAt := 0 })], usesFallback := false },
         [])
    ∧ GetSound.quickStart
        { index := [("zodis", { originalText := "zodis", generatedAt := 0 })], files := ["zodis.mp3"] }
        (fun _ => true) 5 "zodis" false
      = ({ index := [("zodis", { originalText := "zodis", generatedAt := 0 })], files := ["zodis.mp3"] },
         .ok "zodis.mp3") := by
  have h := claim_C3_amended
    { serverUrl := "s", fallbackUrl := "f", cache := [("zodis", { url := "u3", fetchedAt := 0 })], usesFallback := false }
    { probeOk := fun _ => false, synth := fun _ _ _ => none, playOk := fun _ => true }
    100000000 "zodis" { url := "u3", fetchedAt := 0 } (by decide) (by decide)
  refine ⟨h.1, ?_⟩
  have h2 := h.2
    { index := [("zodis", { originalText := "zodis", generatedAt := 0 })], files := ["zodis.mp3"] }
    (fun _ => true) 5 "zodis" (by decide) (by decide)
  have hkey : GetSound.generateTextKey "zodis" = "zodis" := by decide
  rw [hkey] at h2
  exact h2

/-- Adding a fresh index binding and a fresh file can only preserve the
cached status of any key. -/
theorem isCachedIn_cons (idx : List (String × GetSound.CacheEntry))
    (files : List String) (tk : String) (e : GetSound.CacheEntry) (fn : String)
    (k : String)
    (h : GetSound.isCachedIn { index := idx, files := files } k = true) :
    GetSound.isCachedIn { index := (tk, e) :: idx, files := fn :: files } k
      = true := by
  unfold GetSound.isCachedIn at h ⊢
  simp only [Bool.and_eq_true] at h ⊢
  refine ⟨?_, ?_⟩
  · cases hk : k == tk
    · simpa [List.lookup, hk] using h.1
    · simp [List.lookup, hk]
  · simpa [List.contains_cons] using Or.inr h.2

/-- `quickStart` never evicts: a key cached before the call is cached after. -/
theorem isCachedIn_quickStart (st : GetSound.Store) (synthOk : String → Bool)
    (now : Int) (t : String) (f : Bool) (k : String)
    (h : GetSound.isCachedIn st k = true) :
    GetSound.isCachedIn (GetSound.quickStart st synthOk now t f).1 k = true := by
  obtain ⟨idx, files⟩ := st
  unfold GetSound.quickStart
  by_cases h1 : (!f && GetSound.isCachedIn ⟨idx, files⟩
      (GetSound.generateTextKey (GetSound.textOrDefault t))) = true
  · simpa [h1] using h
  · by_cases h2 : synthOk (GetSound.textOrDefault t) = true
    · simpa [h1, h2] using isCachedIn_cons idx files _ _ _ k h
    · simpa [h1, h2] using h

/-- After a successful (or already-cached) `quickStart` for a non-empty `t`,
the key of `t` is cached (for non-empty input the default-phrase substitution
is the identity). -/
theorem isCachedIn_quickStart_self (st : GetSound.Store)
    (synthOk : String → Bool) (now : Int) (t : String)
    (hne : (t == "") = false) (hok : synthOk t = true) :
    GetSound.isCachedIn (GetSound.quickStart st synthOk now t false).1
      (GetSound.generateTextKey t) = true := by
  have hdt : GetSound.textOrDefault t = t := by
    simp [GetSound.textOrDefault, hne]
  unfold GetSound.quickStart
  rw [hdt]
  by_cases h1 : GetSound.isCachedIn st (GetSound.generateTextKey t) = true
  · simp [h1]
  · simp only [h1, Bool.not_false, Bool.true_and, Bool.false_eq_true, if_false,
      hok, if_true]
    simp [GetSound.isCachedIn, List.lookup]

/-- Folding `quickStart` over any list of texts preserves cached keys. -/
theorem isCachedIn_foldl (synthOk : String → Bool) (now : Int)
    (ts : List String) (k : String) :
    ∀ st : GetSound.Store, GetSound.isCachedIn st k = true →
      GetSound.isCachedIn
        (ts.foldl (fun s t => (GetSound.quickStart s synthOk now t false).1) st)
        k = true := by
  induction ts with
  | nil => intro st h; exact h
  | cons a as ih =>
      intro st h
      exact ih _ (isCachedIn_quickStart st synthOk now a false k h)

/-- Folding `quickStart` over a list establishes the key of every non-empty
member whose synthesis succeeds. -/
theorem isCachedIn_foldl_mem (synthOk : String → Bool) (now : Int)
    (ts : List String) (t : String) (ht : t ∈ ts) (hne : (t == "") = false)
    (hok : synthOk t = true) :
    ∀ st : GetSound.Store,
      GetSound.isCachedIn
        (ts.foldl (fun s u => (GetSound.quickStart s synthOk now u false).1) st)
        (GetSound.generateTextKey t) = true := by
  induction ts with
  | nil => cases ht
  | cons a as ih =>
      intro st
      rcases List.mem_cons.mp ht with rfl | hmem
      · simp only [List.foldl_cons]
        exact isCachedIn_foldl synthOk now as _ _
          (isCachedIn_quickStart_self st synthOk now t hne hok)
      · simp only [List.foldl_cons]
        exact ih hmem _

/-- C7 counterexample: for the singleton batch [""] over an empty store with
always-successful synthesis, the first `generateVocabularyAudio` call caches
the default phrase "Labas rytas! Kaip sekasi?" under the default's key (the
`inputText || default` fallback of part_010 line 85), while the batch
partition keys the empty string as "" — so the second call still finds
nothing under "" and reports one generation, not zero. -/
theorem claim_C7_counterexample :
    ((GetSound.generateVocabularyAudio
        (GetSound.generateVocabularyAudio { index := [], files := [] }
          (fun _ => true) 0 [""]).1
        (fun _ => true) 1 [""]).2).generated = 1
    ∧ (1 : Nat) ≠ 0 := by
  refine ⟨rfl, by decide⟩

/-- C7 amended: batch resolution is idempotent for non-empty texts when every
requested synthesis succeeds: after one `generateVocabularyAudio` run over a
list of non-empty texts, a second run over the same list partitions every item
as cached and reports zero generations. -/
theorem claim_C7 (st : GetSound.Store) (synthOk : String → Bool)
    (now1 now2 : Int) (words : List String)
    (h : ∀ t ∈ words, (t == "") = false ∧ synthOk t = true) :
    ((GetSound.generateVocabularyAudio
        (GetSound.generateVocabularyAudio st synthOk now1 words).1
        synthOk now2 words).2).generated = 0
    ∧ ((GetSound.generateVocabularyAudio
        (GetSound.generateVocabularyAudio st synthOk now1 words).1
        synthOk now2 words).2).cached = words.length := by
  have hall : ∀ t ∈ words,
      GetSound.isCachedIn (GetSound.generateVocabularyAudio st synthOk now1 words).1
        (GetSound.generateTextKey t) = true := by
    intro t ht
    simp only [GetSound.generateVocabularyAudio]
    by_cases hc : GetSound.isCachedIn st (GetSound.generateTextKey t) = true
    · exact isCachedIn_foldl synthOk now1 _ _ st hc
    · exact isCachedIn_foldl_mem synthOk now1 _ t
        (List.mem_filter.mpr ⟨ht, by simp [hc]⟩) (h t ht).1 (h t ht).2 st
  constructor
  · simp only [GetSound.generateVocabularyAudio]
    have : (words.filter (fun t =>
        !GetSound.isCachedIn (GetSound.generateVocabularyAudio st synthOk now1 words).1
          (GetSound.generateTextKey t))) = [] := by
      rw [List.filter_eq_nil_iff]
      intro a ha
      simp [hall a ha]
    simpa [GetSound.generateVocabularyAudio] using congrArg List.length this
  · simp only [GetSound.generateVocabularyAudio]
    have : (words.filter (fun t =>
        GetSound.isCachedIn (GetSound.generateVocabularyAudio st synthOk now1 words).1
          (GetSound.generateTextKey t))) = words :=
      List.filter_eq_self.mpr (fun a ha => hall a ha)
    simpa [GetSound.generateVocabularyAudio] using congrArg List.length this

/-- C7 witness: two non-empty texts, an empty store, always-successful
synthesis. -/
theorem claim_C7_witness :
    ((GetSound.generateVocabularyAudio
        (GetSound.generateVocabularyAudio { index := [], files := [] }
          (fun _ => true) 0 ["labas", "rytas"]).1
        (fun _ => true) 1 ["labas", "rytas"]).2).generated = 0
    ∧ ((GetSound.generateVocabularyAudio
        (GetSound.generateVocabularyAudio { index := [], files := [] }
          (fun _ => true) 0 ["labas", "rytas"]).1
        (fun _ => true) 1 ["labas", "rytas"]).2).cached
        = (["labas", "rytas"] : List String).length :=
  claim_C7 { index := [], files := [] } (fun _ => true) 0 1 ["labas", "rytas"]
    (by decide)

/-- C8 counterexample: with the primary cache probe succeeding but playback
failing, `speak` raises AudioUnavailable even though a resolution tier (the
first cache probe, and synthesis too) succeeded — the error is not equivalent
to "every resolution tier failed". -/
theorem claim_C8_counterexample :
    (LithuanianTTSClient.speak
        { serverUrl := "http://localhost:3001", fallbackUrl := "http://localhost:8080", cache := [], usesFallback := false }
        { probeOk := fun _ => true, synth := fun _ _ _ => some "synth://u", playOk := fun _ => false }
        0 "labas" false).1 = .error ()
    ∧ (LithuanianTTSClient.checkCacheDirectly
        { serverUrl := "http://localhost:3001", fallbackUrl := "http://localhost:8080", cache := [], usesFallback := false }
        { probeOk := fun _ => true, synth := fun _ _ _ => some "synth://u", playOk := fun _ => false }
        "labas").1 = some "http://localhost:3001/labas.mp3" :=
  ⟨rfl, rfl⟩

/-- C8 amended: `speak` raises AudioUnavailable exactly when the ordered tier
resolution (primary probe, fallback probe, memo, primary synthesis, fallback
synthesis; probes and memo skipped when forcing) yields no URL, or yields a
URL whose playback fails; its trace never contains a platform built-in voice
event — `fallbackSpeak` is the separate code path that produces one. -/
theorem claim_C8_amended (c : TTSClient) (env : TTSEnv) (now : Int)
    (text : String) (force : Bool) :
    ((LithuanianTTSClient.speak c env now text force).1 = .error ()
      ↔ (LithuanianTTSClient.resolutionOutcome c env text force).elim True
          (fun u => env.playOk u = false))
    ∧ ((LithuanianTTSClient.speak c env now text force).2.2).all
        (fun e => !e.isPlatformVoice) = true
    ∧ LithuanianTTSClient.fallbackSpeak true text = [.platformVoice text] := by
  have h12 : ((LithuanianTTSClient.speak c env now text force).1 = .error ()
      ↔ (LithuanianTTSClient.resolutionOutcome c env text force).elim True
          (fun u => env.playOk u = false))
      ∧ ((LithuanianTTSClient.speak c env now text force).2.2).all
          (fun e => !e.isPlatformVoice) = true := by
    cases force with
    | true =>
        cases hs1 : env.synth c.serverUrl text true with
        | some u =>
            cases hplay : env.playOk u <;>
              simp [LithuanianTTSClient.speak, LithuanianTTSClient.getAudioUrl,
                LithuanianTTSClient.tryServers,
                LithuanianTTSClient.resolutionOutcome,
                NetEvent.isPlatformVoice, hs1, hplay]
        | none =>
            cases hs2 : env.synth c.fallbackUrl text true with
            | some u =>
                cases hplay : env.playOk u <;>
                  simp [LithuanianTTSClient.speak,
                    LithuanianTTSClient.getAudioUrl,
                    LithuanianTTSClient.tryServers,
                    LithuanianTTSClient.resolutionOutcome,
                    NetEvent.isPlatformVoice, hs1, hs2, hplay]
            | none =>
                simp [LithuanianTTSClient.speak,
                  LithuanianTTSClient.getAudioUrl,
                  LithuanianTTSClient.tryServers,
                  LithuanianTTSClient.resolutionOutcome,
                  NetEvent.isPlatformVoice, hs1, hs2]
    | false =>
        by_cases hp1 : env.probeOk (c.serverUrl ++ "/"
            ++ (LithuanianTTSClient.generateTextKey text ++ ".mp3")) = true
        · cases hplay : env.playOk (c.serverUrl ++ "/"
              ++ (LithuanianTTSClient.generateTextKey text ++ ".mp3")) <;>
            simp [LithuanianTTSClient.speak,
              LithuanianTTSClient.checkCacheDirectly,
              LithuanianTTSClient.resolutionOutcome,
              NetEvent.isPlatformVoice, hp1, hplay]
        · by_cases hp2 : env.probeOk (c.fallbackUrl ++ "/audio_cache/"
              ++ (LithuanianTTSClient.generateTextKey text ++ ".mp3")) = true
          · cases hplay : env.playOk (c.fallbackUrl ++ "/audio_cache/"
                ++ (LithuanianTTSClient.generateTextKey text ++ ".mp3")) <;>
              simp [LithuanianTTSClient.speak,
                LithuanianTTSClient.checkCacheDirectly,
                LithuanianTTSClient.resolutionOutcome,
                NetEvent.isPlatformVoice, hp1, hp2, hplay]
          · cases hm : c.cache.lookup (LithuanianTTSClient.generateTextKey text) with
            | some e =>
                cases hplay : env.playOk e.url <;>
                  simp [LithuanianTTSClient.speak,
                    LithuanianTTSClient.checkCacheDirectly,
                    LithuanianTTSClient.getAudioUrl,
                    LithuanianTTSClient.resolutionOutcome,
                    NetEvent.isPlatformVoice, hp1, hp2, hm, hplay]
            | none =>
                cases hs1 : env.synth c.serverUrl text false with
                | some u =>
                    cases hplay : env.playOk u <;>
                      simp [LithuanianTTSClient.speak,
                        LithuanianTTSClient.checkCacheDirectly,
                        LithuanianTTSClient.getAudioUrl,
                        LithuanianTTSClient.tryServers,
                        LithuanianTTSClient.resolutionOutcome,
                        NetEvent.isPlatformVoice, hp1, hp2, hm, hs1, hplay]
                | none =>
                    cases hs2 : env.synth c.fallbackUrl text false with
                    | some u =>
                        cases hplay : env.playOk u <;>
                          simp [LithuanianTTSClient.speak,
                            LithuanianTTSClient.checkCacheDirectly,
                            LithuanianTTSClient.getAudioUrl,
                            LithuanianTTSClient.tryServers,
                            LithuanianTTSClient.resolutionOutcome,
                            NetEvent.isPlatformVoice, hp1, hp2, hm, hs1, hs2,
                            hplay]
                    | none =>
                        simp [LithuanianTTSClient.speak,
                          LithuanianTTSClient.checkCacheDirectly,
                          LithuanianTTSClient.getAudioUrl,
                          LithuanianTTSClient.tryServers,
                          LithuanianTTSClient.resolutionOutcome,
                          NetEvent.isPlatformVoice, hp1, hp2, hm, hs1, hs2]
  exact ⟨h12.1, h12.2, rfl⟩

end LietuvioKelias
